import Mathlib

/-!
Shallow embedding of the Felt repository: three Cython/distutils build
descriptors (`legacy/python/felt/setup.py` = variant A,
`python/felt/setup.py` = variant B, `scripts/felt/setup.py` = variant C)
and the single integration test
`python/felt/tests/lib/test_SimpleWindow.py`.

The build descriptors are straight-line Python that constructs a list of
`Extension` declarations from an environment-variable root and passes them
to `cythonize`/`setup`.  We embed the declarations as data, with each path
recorded as either a literal relative path or an `os.path.join(project_dir, s)`
expression, and embed Python's path-join and `str.strip` semantics used by
the scripts and the test.

The integration test is a straight-line sequence of calls into the external
sfml/rocket bindings interleaved with unittest assertions.  We embed it as a
trace semantics: the external world's responses (whether the document load
returned a handle and what its `inner_rml` text is, and whether the window
reports open) are a `World` parameter, and running the test produces the
list of operations performed plus the test's result, with an assertion
failure aborting the run at that point exactly as `unittest` does.
-/

namespace Felt

/-- Characters stripped by Python's `str.strip()` with no argument
(ASCII whitespace: space, tab, newline, carriage return, vertical tab,
form feed). -/
def isPySpace (c : Char) : Bool :=
  c = ' ' || c = '\t' || c = '\n' || c = '\r' || c = '\x0b' || c = '\x0c'

/-- Python `str.strip()`: remove leading and trailing whitespace. -/
def pyStrip (s : String) : String :=
  String.mk (((s.data.dropWhile isPySpace).reverse.dropWhile isPySpace).reverse)

/-- Whether a string starts with the path separator. -/
def headIsSlash (s : String) : Bool :=
  match s.data with
  | [] => false
  | c :: _ => c = '/'

/-- Whether a string is empty or ends with the path separator. -/
def endIsSlashOrEmpty (s : String) : Bool :=
  match s.data.getLast? with
  | none => true
  | some c => c = '/'

/-- POSIX `os.path.join` on two string components. -/
def pyJoin (a b : String) : String :=
  if headIsSlash b then b
  else if endIsSlashOrEmpty a then a ++ b
  else a ++ "/" ++ b

/-- A path occurring in a build descriptor: either a literal relative path,
or `os.path.join(project_dir, s)` where `project_dir` is the environment
root looked up at the top of the script. -/
inductive PathExpr where
  | lit (s : String)
  | rootJoin (s : String)
deriving DecidableEq, Repr

/-- Whether a descriptor path is derived from the environment root by join. -/
def PathExpr.isRootJoin : PathExpr → Bool
  | .rootJoin _ => true
  | .lit _ => false

/-- One `Extension(...)` declaration of a build descriptor.  Arguments the
script does not pass keep distutils' defaults (empty lists). -/
structure Extension where
  name : String
  sources : List PathExpr
  include_dirs : List PathExpr
  library_dirs : List PathExpr
  libraries : List String
  lang : String
  extra_compile_args : List String
  extra_link_args : List String
deriving DecidableEq, Repr

/-- The keyword arguments a descriptor passes to `cythonize`; `none` means
the argument is not passed (the tool's default applies). -/
structure CythonizeCall where
  gdb_debug : Option Bool
  output_dir : Option PathExpr
deriving DecidableEq, Repr

/-- One build descriptor: the environment variable naming the root, the
extension declarations, and the `cythonize` call's arguments. -/
structure Variant where
  rootVar : String
  extensions : List Extension
  cythonizeCall : CythonizeCall
deriving DecidableEq, Repr

/-- `os.environ.get(k)` with no default argument, over an explicit
environment (an association list). -/
def environGet (env : List (String × String)) (k : String) : Option String :=
  (env.find? (fun p => p.1 == k)).map Prod.snd

/-- `project_dir = os.environ.get(<root variable>)` at the top of a
descriptor. -/
def projectDir (v : Variant) (env : List (String × String)) : Option String :=
  environGet env v.rootVar

/-- Evaluating a descriptor path when the environment root resolved to
`root`.  `os.path.join(None, s)` raises in Python, which the embedding
returns as an error. -/
def resolve (root : Option String) : PathExpr → Except String String
  | .lit s => .ok s
  | .rootJoin s =>
    match root with
    | some r => .ok (pyJoin r s)
    | none => .error "TypeError: expected str, not NoneType"

/-- Evaluating a descriptor path with a present root (total). -/
def resolveStr (r : String) : PathExpr → String
  | .lit s => s
  | .rootJoin s => pyJoin r s

/-- Every path expression a descriptor evaluates: each extension's sources,
include directories and library directories, then the `cythonize`
output directory when passed. -/
def allPathExprs (v : Variant) : List PathExpr :=
  ((v.extensions.map fun e => e.sources ++ e.include_dirs ++ e.library_dirs).flatten)
    ++ v.cythonizeCall.output_dir.toList

/-- Deriving every path of a descriptor from the (possibly absent) root,
in order; fails at the first join against an absent root. -/
def derivePaths (root : Option String) (v : Variant) : Except String (List String) :=
  (allPathExprs v).mapM (resolve root)

/-- The resolved `cythonize` output directory for root `r`, when passed. -/
def cythonizeOutput (r : String) (v : Variant) : Option String :=
  v.cythonizeCall.output_dir.map (resolveStr r)

/-- Variant A: `legacy/python/felt/setup.py`. -/
def variantA : Variant :=
  { rootVar := "PROJECT_DIR"
    extensions :=
      [ { name := "tests.lib.PyStubTemplate"
          sources := [.lit "tests/lib/PyStubTemplate.pyx"]
          include_dirs := [.rootJoin "tests"]
          library_dirs := []
          libraries := []
          lang := "c++"
          extra_compile_args := []
          extra_link_args := [] },
        { name := "lib.PyRktSFMLInterface"
          sources := [.lit "lib/PyRktSFMLInterface.pyx"]
          include_dirs := [.rootJoin "include", .rootJoin "libFelt"]
          library_dirs := [.rootJoin "lib/rocket/lib", .rootJoin "libFelt/.libs"]
          libraries := ["Felt", "RocketCore", "RocketControls", "RocketDebugger",
            "sfml-window", "sfml-system", "sfml-graphics"]
          lang := "c++"
          extra_compile_args := ["-g"]
          extra_link_args := ["-g"] } ]
    cythonizeCall :=
      { gdb_debug := some true
        output_dir := some (.rootJoin "python/felt/lib") } }

/-- Variant B: `python/felt/setup.py`.  Only the stub extension is declared,
and `cythonize` is called with neither `gdb_debug` nor `output_dir`. -/
def variantB : Variant :=
  { rootVar := "PROJECT_DIR"
    extensions :=
      [ { name := "tests.lib.PyStubTemplate"
          sources := [.lit "tests/lib/PyStubTemplate.pyx"]
          include_dirs := [.rootJoin "tests"]
          library_dirs := []
          libraries := []
          lang := "c++"
          extra_compile_args := []
          extra_link_args := [] } ]
    cythonizeCall :=
      { gdb_debug := none
        output_dir := none } }

/-- Variant C: `scripts/felt/setup.py`. -/
def variantC : Variant :=
  { rootVar := "PROJECT_ROOT"
    extensions :=
      [ { name := "tests.lib.PyStubTemplate"
          sources := [.lit "tests/lib/PyStubTemplate.pyx"]
          include_dirs := [.rootJoin "src/tests"]
          library_dirs := []
          libraries := []
          lang := "c++"
          extra_compile_args := []
          extra_link_args := [] },
        { name := "lib.PyRktSFMLInterface"
          sources := [.lit "lib/PyRktSFMLInterface.pyx"]
          include_dirs := [.rootJoin "include", .rootJoin "vendor/include"]
          library_dirs := [.rootJoin "lib", .rootJoin "vendor/lib"]
          libraries := ["RktSFMLInterface", "RocketCore", "RocketControls",
            "RocketDebugger", "sfml-window", "sfml-system", "sfml-graphics"]
          lang := "c++"
          extra_compile_args := ["-g"]
          extra_link_args := ["-g"] } ]
    cythonizeCall :=
      { gdb_debug := some true
        output_dir := some (.rootJoin "scripts/felt/lib") } }

/-- The libraries linked by extension number `i` of a descriptor. -/
def extLibs (v : Variant) (i : Nat) : List String :=
  (((v.extensions.drop i).head?).map Extension.libraries).getD []

/-- The source-file paths of a descriptor's extensions. -/
def sourcePathExprs (v : Variant) : List PathExpr :=
  (v.extensions.map Extension.sources).flatten

/-- The include-directory, library-directory and output-directory paths of a
descriptor. -/
def searchPathExprs (v : Variant) : List PathExpr :=
  (v.extensions.map (fun e => e.include_dirs ++ e.library_dirs)).flatten
    ++ v.cythonizeCall.output_dir.toList

/-! ## The integration test

`test_open_window_load_document` in `tests/lib/test_SimpleWindow.py`. -/

/-- One operation performed by the test, in the order the script executes
them: external calls and unittest assertions. -/
inductive Op where
  | createWindow (w h : Nat) (title : String)
  | constructAdapter
  | createContext (name : String) (w h : Nat)
  | rktInit
  | rktInitDebugger
  | loadDocument (path : String)
  | assertDocNotNone
  | showDocument
  | assertWindowOpen
  | updateContext
  | clearWindow
  | renderContext
  | displayWindow
  | closeWindow
  | assertTextEquals (actual expected : String)
deriving DecidableEq, Repr

/-- Outcome of a test run: every assertion held, or the first failing
assertion aborted the run. -/
inductive TestResult where
  | passed
  | failed (check : String)
deriving DecidableEq, Repr

/-- The external world's responses, fixed for one run: the result of
`context.LoadDocument('assets/blank.rml')` (`none` for a null handle,
otherwise the document's `inner_rml` text) and what `window.is_open`
reports when queried. -/
structure World where
  document : Option String
  isOpen : Bool
deriving DecidableEq, Repr

/-- The operations up to and including the document load: these happen
unconditionally before the first assertion.  Note `rktInitDebugger` is live
code in the source (only the `pydevd.settrace()` line above it is
commented out). -/
def preOps : List Op :=
  [ .createWindow 640 480 "pySFML Window",
    .constructAdapter,
    .createContext "default" 640 480,
    .rktInit,
    .rktInitDebugger,
    .loadDocument "assets/blank.rml" ]

/-- Running `test_open_window_load_document` against a world: the trace of
operations performed and the result.  A failing assertion raises, so
nothing after it runs. -/
def testRun (w : World) : List Op × TestResult :=
  match w.document with
  | none => (preOps ++ [.assertDocNotNone], .failed "assertIsNotNone")
  | some doc =>
    if w.isOpen then
      let full := preOps ++
        [ .assertDocNotNone, .showDocument, .assertWindowOpen,
          .updateContext, .clearWindow, .renderContext, .displayWindow,
          .closeWindow, .assertTextEquals (pyStrip doc) "This is blank" ]
      if pyStrip doc = "This is blank" then (full, .passed)
      else (full, .failed "assertEqual")
    else (preOps ++ [.assertDocNotNone, .showDocument, .assertWindowOpen],
      .failed "assertTrue")

/-- The operation sequence the spec claims the test performs "in this exact
order": it lists every step of the active path except the debugger
initialization.  The final assertion's arguments are instantiated for a
document whose text is exactly `"This is blank"`. -/
def claimedC4Trace : List Op :=
  [ .createWindow 640 480 "pySFML Window",
    .constructAdapter,
    .createContext "default" 640 480,
    .rktInit,
    .loadDocument "assets/blank.rml",
    .assertDocNotNone,
    .showDocument,
    .assertWindowOpen,
    .updateContext,
    .clearWindow,
    .renderContext,
    .displayWindow,
    .closeWindow,
    .assertTextEquals "This is blank" "This is blank" ]

/-! ## Evaluation lemmas for the test run -/

/-- Running the test when the document load returns a null handle: the run
aborts at the non-null assertion. -/
theorem testRun_none (op : Bool) :
    testRun ⟨none, op⟩ =
      (preOps ++ [.assertDocNotNone], .failed "assertIsNotNone") := rfl

/-- Running the test when the window does not report open: the run aborts at
the is-open assertion. -/
theorem testRun_notOpen (s : String) :
    testRun ⟨some s, false⟩ =
      (preOps ++ [.assertDocNotNone, .showDocument, .assertWindowOpen],
        .failed "assertTrue") := rfl

/-- Trace of a run in which the document loaded and the window is open. -/
theorem testRun_open_fst (s : String) :
    (testRun ⟨some s, true⟩).1 = preOps ++
      [ .assertDocNotNone, .showDocument, .assertWindowOpen, .updateContext,
        .clearWindow, .renderContext, .displayWindow, .closeWindow,
        .assertTextEquals (pyStrip s) "This is blank" ] := by
  by_cases h : pyStrip s = "This is blank" <;> simp [testRun, h]

/-- Result of a run in which the document loaded and the window is open. -/
theorem testRun_open_snd (s : String) :
    (testRun ⟨some s, true⟩).2 =
      if pyStrip s = "This is blank" then .passed else .failed "assertEqual" := by
  by_cases h : pyStrip s = "This is blank" <;> simp [testRun, h]

/-! ## The claims -/

/-- C1: on the test's active path (document loaded, window open), the run
passes exactly when the document's `inner_rml`, stripped of leading and
trailing whitespace, equals the literal `"This is blank"`; the comparison is
the final operation, performed after the update-clear-render-display cycle,
and the document was loaded from `assets/blank.rml`. -/
theorem final_assertion_checks_trimmed_text (d : String) :
    ((testRun ⟨some d, true⟩).2 = TestResult.passed ↔ pyStrip d = "This is blank") ∧
    (∃ pre, (testRun ⟨some d, true⟩).1 = pre ++
        [ Op.updateContext, Op.clearWindow, Op.renderContext, Op.displayWindow,
          Op.closeWindow, Op.assertTextEquals (pyStrip d) "This is blank" ] ∧
      Op.loadDocument "assets/blank.rml" ∈ pre) := by
  constructor
  · rw [testRun_open_snd]
    by_cases h : pyStrip d = "This is blank" <;> simp [h]
  · refine ⟨preOps ++ [.assertDocNotNone, .showDocument, .assertWindowOpen],
      ?_, by simp [preOps]⟩
    rw [testRun_open_fst]
    simp

/-- C2: variants A and C declare the same compiled-module names
(`tests.lib.PyStubTemplate` and `lib.PyRktSFMLInterface`); the stub links no
libraries in either; the bridge's non-bridge (tail) libraries are the same
six Rocket/SFML libraries in both; only the bridge library's own name (the
head of the list) differs: `Felt` in A, `RktSFMLInterface` in C. -/
theorem variantsAC_same_modules_same_nonbridge_libs :
    variantA.extensions.map Extension.name =
      ["tests.lib.PyStubTemplate", "lib.PyRktSFMLInterface"] ∧
    variantC.extensions.map Extension.name =
      ["tests.lib.PyStubTemplate", "lib.PyRktSFMLInterface"] ∧
    extLibs variantA 0 = [] ∧ extLibs variantC 0 = [] ∧
    (extLibs variantA 1).tail = (extLibs variantC 1).tail ∧
    (extLibs variantA 1).tail =
      ["RocketCore", "RocketControls", "RocketDebugger",
       "sfml-window", "sfml-system", "sfml-graphics"] ∧
    (extLibs variantA 1).head? = some "Felt" ∧
    (extLibs variantC 1).head? = some "RktSFMLInterface" := by decide

/-- C3 counterexample: with root `/repo`, variant B's `cythonize` call names
no output directory at all, so its output location is neither
`/repo/python/felt/lib` nor the same as variant A's. -/
theorem variantB_output_dir_not_root_derived_cex :
    variantB.cythonizeCall.output_dir = none ∧
    (cythonizeOutput "/repo" variantB == some "/repo/python/felt/lib") = false ∧
    (cythonizeOutput "/repo" variantB == cythonizeOutput "/repo" variantA) = false := by
  decide

/-- C3 amended: with root `/repo`, variant A declares two compiled modules
with output directory `/repo/python/felt/lib`, while variant B declares
exactly one (the stub; its list omits the bridge module) and passes no
output directory, so its output location is not derived from the root. -/
theorem variantA_two_artifacts_variantB_one_amended :
    variantA.extensions.map Extension.name =
      ["tests.lib.PyStubTemplate", "lib.PyRktSFMLInterface"] ∧
    variantA.extensions.length = 2 ∧
    cythonizeOutput "/repo" variantA = some "/repo/python/felt/lib" ∧
    variantB.extensions.map Extension.name = ["tests.lib.PyStubTemplate"] ∧
    variantB.extensions.length = 1 ∧
    (variantB.extensions.map Extension.name).contains "lib.PyRktSFMLInterface" = false ∧
    variantB.cythonizeCall.output_dir = none := by decide

/-- C4 counterexample: on a fully passing run, the test's trace is not the
claimed fourteen-step sequence: the executed trace contains the
`rktInitDebugger` call, which the claimed sequence omits. -/
theorem exact_order_omits_debugger_cex :
    ((testRun ⟨some "This is blank", true⟩).1 == claimedC4Trace) = false ∧
    (testRun ⟨some "This is blank", true⟩).2 = TestResult.passed ∧
    (testRun ⟨some "This is blank", true⟩).1.contains Op.rktInitDebugger = true ∧
    claimedC4Trace.contains Op.rktInitDebugger = false := by decide

/-- C4 amended: on the active path the test performs, in this exact order:
create the 640x480 window with its fixed title, construct the adapter,
create the 640x480 context, initialize the adapter, initialize the
adapter's debugger, load the document, assert the document non-null, show
the document, assert the window open, update the context, clear the window,
render the context, display the window, close the window, and finally
assert the stripped document text. -/
theorem exact_order_includes_debugger_amended (d : String) :
    (testRun ⟨some d, true⟩).1 =
      [ Op.createWindow 640 480 "pySFML Window", Op.constructAdapter,
        Op.createContext "default" 640 480, Op.rktInit, Op.rktInitDebugger,
        Op.loadDocument "assets/blank.rml", Op.assertDocNotNone, Op.showDocument,
        Op.assertWindowOpen, Op.updateContext, Op.clearWindow, Op.renderContext,
        Op.displayWindow, Op.closeWindow,
        Op.assertTextEquals (pyStrip d) "This is blank" ] := by
  rw [testRun_open_fst]
  rfl

/-- C5 counterexample: with the root variable unset, path derivation does
not proceed in any of the three variants: each fails at the first join
against the absent value, with Python's type error. -/
theorem unset_root_derivation_fails_cex :
    (derivePaths none variantA).isOk = false ∧
    (derivePaths none variantB).isOk = false ∧
    (derivePaths none variantC).isOk = false ∧
    derivePaths none variantB = Except.error "TypeError: expected str, not NoneType" :=
  ⟨rfl, rfl, rfl, rfl⟩

/-- C5 amended: no validation of the root's value is performed — with any
root string at all, every variant's path derivation succeeds — but when the
root variable is unset, derivation fails at the first join against the
absent value with an unhandled type error rather than proceeding. -/
theorem unset_root_fails_set_root_proceeds_amended (r : String) :
    (∃ l, derivePaths (some r) variantA = Except.ok l) ∧
    (∃ l, derivePaths (some r) variantB = Except.ok l) ∧
    (∃ l, derivePaths (some r) variantC = Except.ok l) ∧
    derivePaths none variantA = Except.error "TypeError: expected str, not NoneType" ∧
    derivePaths none variantB = Except.error "TypeError: expected str, not NoneType" ∧
    derivePaths none variantC = Except.error "TypeError: expected str, not NoneType" :=
  ⟨⟨_, rfl⟩, ⟨_, rfl⟩, ⟨_, rfl⟩, rfl, rfl, rfl⟩

/-- C6 counterexample: not every non-root path is derived from the root by
join: variant A's stub source path is a plain relative literal. -/
theorem source_paths_not_root_joined_cex :
    (allPathExprs variantA).contains (PathExpr.lit "tests/lib/PyStubTemplate.pyx") = true ∧
    PathExpr.isRootJoin (PathExpr.lit "tests/lib/PyStubTemplate.pyx") = false ∧
    ((allPathExprs variantA).all PathExpr.isRootJoin) = false := by decide

/-- C6 amended: variants A and B read `PROJECT_DIR` and variant C reads
`PROJECT_ROOT`, each with no default (an environment without the key yields
no value); every include-, library- and output-directory path is derived
from the root by join, while the extension source paths are fixed relative
literals not derived from the root. -/
theorem root_vars_and_path_derivation_amended :
    (variantA.rootVar = "PROJECT_DIR" ∧ variantB.rootVar = "PROJECT_DIR" ∧
      variantC.rootVar = "PROJECT_ROOT") ∧
    (∀ env : List (String × String),
      env.all (fun p => p.1 != "PROJECT_DIR") = true → projectDir variantA env = none) ∧
    projectDir variantA [] = none ∧ projectDir variantB [] = none ∧
    projectDir variantC [("PROJECT_DIR", "/repo")] = none ∧
    projectDir variantA [("PROJECT_DIR", "/repo")] = some "/repo" ∧
    ((searchPathExprs variantA).all PathExpr.isRootJoin = true ∧
      (searchPathExprs variantB).all PathExpr.isRootJoin = true ∧
      (searchPathExprs variantC).all PathExpr.isRootJoin = true) ∧
    ((sourcePathExprs variantA).all (fun p => !PathExpr.isRootJoin p) = true ∧
      (sourcePathExprs variantB).all (fun p => !PathExpr.isRootJoin p) = true ∧
      (sourcePathExprs variantC).all (fun p => !PathExpr.isRootJoin p) = true) := by
  refine ⟨by decide, ?_, by decide, by decide, by decide, by decide, by decide, by decide⟩
  intro env h
  unfold projectDir environGet
  rw [List.find?_eq_none.mpr, Option.map_none']
  intro x hx
  have hb := List.all_eq_true.mp h x hx
  simp only [bne_iff_ne, ne_eq] at hb
  simpa using hb

/-- C7 counterexample: the `rktInitDebugger` call is executed on the active
path — it appears in the trace of every run, including a fully passing one
(only the `pydevd.settrace` line above it is commented out in the source). -/
theorem debugger_call_executed_cex :
    (testRun ⟨some "This is blank", true⟩).1.contains Op.rktInitDebugger = true ∧
    (testRun ⟨some "This is blank", true⟩).2 = TestResult.passed ∧
    (testRun ⟨none, true⟩).1.contains Op.rktInitDebugger = true ∧
    (testRun ⟨some "", false⟩).1.contains Op.rktInitDebugger = true := by decide

/-- C7 amended: `rktInitDebugger` is executed unconditionally as a required
step of the test sequence: in every run it is the fifth operation, before
the document load; what is commented out is only the `pydevd.settrace`
debug-attach line. -/
theorem debugger_call_unconditional_amended (w : World) :
    Op.rktInitDebugger ∈ (testRun w).1 ∧
    (testRun w).1.take 6 = preOps ∧
    preOps[4]? = some Op.rktInitDebugger ∧
    preOps[5]? = some (Op.loadDocument "assets/blank.rml") := by
  obtain ⟨doc, op⟩ := w
  have key : ∃ rest, (testRun ⟨doc, op⟩).1 = preOps ++ rest := by
    cases doc with
    | none => exact ⟨_, congrArg Prod.fst (testRun_none op)⟩
    | some s =>
      cases op with
      | false => exact ⟨_, congrArg Prod.fst (testRun_notOpen s)⟩
      | true => exact ⟨_, testRun_open_fst s⟩
  obtain ⟨rest, hr⟩ := key
  rw [hr]
  refine ⟨by simp [preOps], ?_, rfl, rfl⟩
  have h6 : (6 : Nat) = preOps.length := rfl
  rw [h6, List.take_left]

/-- C8: in every run the non-null assertion on the document immediately
follows the document load (the load is the last element of `preOps`), and
when the load returns a null handle the run fails at exactly that assertion,
with no further operation — in particular the document is never shown. -/
theorem null_document_aborts_at_assertion (w : World) :
    (∃ rest, (testRun w).1 = preOps ++ Op.assertDocNotNone :: rest) ∧
    (w.document = none →
      (testRun w).2 = TestResult.failed "assertIsNotNone" ∧
      (testRun w).1 = preOps ++ [Op.assertDocNotNone]) := by
  obtain ⟨doc, op⟩ := w
  cases doc with
  | none =>
    exact ⟨⟨[], congrArg Prod.fst (testRun_none op)⟩,
      fun _ => ⟨congrArg Prod.snd (testRun_none op),
        congrArg Prod.fst (testRun_none op)⟩⟩
  | some s =>
    refine ⟨?_, fun h => by simp at h⟩
    cases op with
    | false => exact ⟨_, congrArg Prod.fst (testRun_notOpen s)⟩
    | true => exact ⟨_, testRun_open_fst s⟩

/-- C9: `window.close()` runs only when both earlier assertions pass — if
the document is null or the window does not report open, the trace contains
no close, so the window is left open — and on the passing path the final
text assertion is the last operation, performed after the close (close is
the fourteenth operation, the text assertion the fifteenth). -/
theorem close_only_on_passing_path (w : World) :
    (w.document = none → (testRun w).1.contains Op.closeWindow = false) ∧
    (w.isOpen = false → (testRun w).1.contains Op.closeWindow = false) ∧
    (∀ d, w.document = some d → w.isOpen = true →
      (testRun w).1 =
        [ Op.createWindow 640 480 "pySFML Window", Op.constructAdapter,
          Op.createContext "default" 640 480, Op.rktInit, Op.rktInitDebugger,
          Op.loadDocument "assets/blank.rml", Op.assertDocNotNone, Op.showDocument,
          Op.assertWindowOpen, Op.updateContext, Op.clearWindow, Op.renderContext,
          Op.displayWindow, Op.closeWindow,
          Op.assertTextEquals (pyStrip d) "This is blank" ]) := by
  obtain ⟨doc, op⟩ := w
  cases doc with
  | none =>
    refine ⟨fun _ => ?_, fun _ => ?_, fun d hd => by simp at hd⟩ <;>
      · rw [congrArg Prod.fst (testRun_none op)]
        decide
  | some s =>
    cases op with
    | false =>
      refine ⟨fun h => by simp at h, fun _ => ?_, fun d _ hop => by simp at hop⟩
      rw [congrArg Prod.fst (testRun_notOpen s)]
      decide
    | true =>
      refine ⟨fun h => by simp at h, fun h => by simp at h, fun d hd _ => ?_⟩
      have hs : s = d := by simpa using hd
      subst hs
      rw [testRun_open_fst]
      rfl

/-- C10: variant B's `cythonize` call passes neither `gdb_debug` nor
`output_dir`, while variants A and C both pass `gdb_debug=True` and a
root-derived output directory. -/
theorem variantB_cythonize_defaults :
    variantB.cythonizeCall.gdb_debug = none ∧
    variantB.cythonizeCall.output_dir = none ∧
    variantA.cythonizeCall.gdb_debug = some true ∧
    variantA.cythonizeCall.output_dir = some (PathExpr.rootJoin "python/felt/lib") ∧
    variantC.cythonizeCall.gdb_debug = some true ∧
    variantC.cythonizeCall.output_dir = some (PathExpr.rootJoin "scripts/felt/lib") := by
  decide

end Felt
